import Mathlib

/-!
Shallow embedding of `smb_tempest.py` (an SMB load generator) and proofs
about its workload engine.

Modelling conventions:
* The per-task stats dict built by `process_task` becomes the structure
  `TaskStats`; a key that may be absent is an `Option` field.  The `error`
  field models the error slot of a task result; `smb_tempest.py` never
  writes an `"error"` key, so the embedding only ever sets it to `none`.
* Remote I/O outcomes (bytes returned by a read, exceptions) are supplied
  by an explicit environment `SessionEnv`; Python's `random.random()`
  stream becomes a function `Nat → ℚ` with values in `[0, 1)`.
* Python ints are `Nat` (or `ℤ` where the CLI value may be negative),
  Python floats are `ℚ`; `int(x)` on the non-negative quotients appearing
  here is `Int.floor`.
* Loops are structural recursion; the write loop of `smb_create_file`
  recurses on a fuel argument equal to the remaining byte count, which
  bounds the iteration count whenever `block_size ≥ 1` (with
  `block_size = 0` the Python loop never terminates, and every theorem
  below assumes `block_size ≥ 1`).
-/

/-- Stats dict returned by one session task (`process_task`).  The keys the
code writes are `mode`, `bytes_read` and `num_random_files`; a failed task
returns the empty dict `{}` (all fields `none`).  The `error` field models
the spec's error slot of a TaskResult; the code never populates it. -/
structure TaskStats where
  mode : Option String
  bytes_read : Option Nat
  num_random_files : Option Nat
  error : Option String
deriving DecidableEq, Repr

/-- Empty dict `{}`, returned by `process_task` when its try-block raises
(src/smb_tempest.py line 296). -/
def TaskStats.empty : TaskStats :=
  { mode := none, bytes_read := none, num_random_files := none, error := none }

/-- Python truthiness of the stats dict: a dict is truthy iff it is
non-empty, i.e. some key is present (`if result:` at line 452). -/
def TaskStats.isTruthy (s : TaskStats) : Bool :=
  s.mode.isSome || s.bytes_read.isSome || s.num_random_files.isSome || s.error.isSome

/-- Workload mode selected by the mutually exclusive CLI flags. -/
inductive Mode where
  | streaming_reads
  | read_iops
  | streaming_writes
  | random_io
  | default_mode
deriving DecidableEq, Repr

/-- Embeds `infer_mode_label` (src/smb_tempest.py lines 134-143). -/
def infer_mode_label : Mode → String
  | Mode.streaming_reads => "streaming_reads"
  | Mode.read_iops => "read_iops"
  | Mode.streaming_writes => "streaming_writes"
  | Mode.random_io => "random_io"
  | Mode.default_mode => "default (write stream → read stream → churn small random files)"

/-- Resolved configuration fields of `args` that the workload engine reads. -/
structure Config where
  mode : Mode
  num_smb_sessions : Nat
  max_file_size : Nat
  block_size : Nat
  fail_fast : Bool
  num_iops_reads : Nat
  num_random_ops : Nat
  max_random_io_readpct : ℤ
deriving Repr

/-- Environment of one session task: the outcomes of its remote I/O.
`failure` is `some e` when some operation inside the try-block of
`process_task` raises exception `e` (the whole workload is then abandoned);
`iopsReadLen i` is the byte count returned by the i-th read of
`smb_iops_read`; `fileSize` is the remote file's `end_of_file`;
`chunkLen off` is the byte count `read_chunk off` returns in
`smb_read_file` (0 when that read raised); `rnd i` is the i-th value of
`random.random()` in `smb_random_io`; `rndReadLen i` is the byte count of
the i-th random-IO read, `none` when that read raised (the op is skipped);
`numRandomFiles` is the draw of `random.randint(10, 10000)` in the
default churn mode. -/
structure SessionEnv where
  failure : Option String
  iopsReadLen : Nat → Nat
  fileSize : Nat
  chunkLen : Nat → Nat
  rnd : Nat → ℚ
  rndReadLen : Nat → Option Nat
  numRandomFiles : Nat

/-- Embeds `retry_operation` (src/smb_tempest.py lines 69-84).  `op i` is
the outcome of the (i+1)-th invocation of the wrapped function.  The
result is the pair (number of invocations performed, returned value):
`some (Except.ok a)` when some attempt returned `a`, `some (Except.error e)`
when the last allowed attempt raised `e` (re-raised), and `none` when
`max_attempts = 0`, in which case the Python wrapper falls off the loop
and silently returns `None` after zero invocations. -/
def retryAux {ε α : Type} (op : Nat → Except ε α) :
    Nat → Nat → Nat × Option (Except ε α)
  | _, 0 => (0, none)
  | attempt, remaining + 1 =>
    match op attempt with
    | Except.ok a => (1, some (Except.ok a))
    | Except.error e =>
      if remaining = 0 then (1, some (Except.error e))
      else
        let r := retryAux op (attempt + 1) remaining
        (r.1 + 1, r.2)

/-- Return value of the retry wrapper with `max_attempts` attempts. -/
def retry_operation {ε α : Type} (max_attempts : Nat) (op : Nat → Except ε α) :
    Option (Except ε α) :=
  (retryAux op 0 max_attempts).2

/-- Number of times the retry wrapper invokes the wrapped operation. -/
def retry_invocations {ε α : Type} (max_attempts : Nat) (op : Nat → Except ε α) : Nat :=
  (retryAux op 0 max_attempts).1

/-- Write loop of `smb_create_file` (src/smb_tempest.py lines 309-314):
emits the list of (offset, length) writes.  `offset` is `total_written`,
`remaining` is `size - total_written`; each iteration writes
`min block_size remaining` bytes at `offset`.  The fuel argument only
bounds the recursion; `remaining` itself is a sufficient fuel whenever
`block_size ≥ 1`. -/
def writeBlocksAux (block_size : Nat) : Nat → Nat → Nat → List (Nat × Nat)
  | _, _, 0 => []
  | offset, remaining, fuel + 1 =>
    if remaining = 0 then []
    else
      (offset, min block_size remaining) ::
        writeBlocksAux block_size (offset + min block_size remaining)
          (remaining - min block_size remaining) fuel

/-- Writes `smb_create_file tree path size block_size` issues, in order. -/
def smb_create_file_writes (size block_size : Nat) : List (Nat × Nat) :=
  writeBlocksAux block_size 0 size size

/-- Clamp constant `MAX_SMB_READ_SIZE` of `smb_read_file`
(src/smb_tempest.py line 352). -/
def MAX_SMB_READ_SIZE : Nat := 1024 * 1024

/-- Python `range(0, stop, step)` for `step ≥ 1` (for `step = 0` Python
raises `ValueError`, so no offsets are produced; the embedding returns the
empty list there). -/
def pyRangeStep (stop step : Nat) : List Nat :=
  if step = 0 then [] else (List.range ((stop + step - 1) / step)).map (fun i => i * step)

/-- Read requests (offset, length) issued by `smb_read_file`
(src/smb_tempest.py lines 351-379): the per-range length is
`min block_size MAX_SMB_READ_SIZE` and the offsets partition
`[0, file_size)` with that stride. -/
def smb_read_file_requests (file_size block_size : Nat) : List (Nat × Nat) :=
  (pyRangeStep file_size (min block_size MAX_SMB_READ_SIZE)).map
    (fun off => (off, min block_size MAX_SMB_READ_SIZE))

/-- Total bytes returned by `smb_read_file`: the chunk results are summed
over all offsets (`read_chunk` returns 0 when its read raises); the sum is
over `as_completed` order, which cannot change a `Nat` sum. -/
def smb_read_file (file_size block_size : Nat) (chunkLen : Nat → Nat) : Nat :=
  ((smb_read_file_requests file_size block_size).map (fun r => chunkLen r.1)).sum

/-- Modelled from the spec: `smb_iops_read` is called by `process_task`
(src/smb_tempest.py line 260) but is defined nowhere under src/.  The
spec's ReadIOPS strategy says: open an existing file for read, issue a
configured count of small fixed-size (4 KiB) reads all from offset 0,
return total bytes read.  This is the list of (offset, length) read
requests it issues. -/
def smb_iops_read_requests (num_reads : Nat) : List (Nat × Nat) :=
  (List.range num_reads).map (fun _ => (0, 4096))

/-- Modelled from the spec: total bytes read by `smb_iops_read`, the sum of
the byte counts the `num_reads` reads return (`readLen i` being the i-th
read's result). -/
def smb_iops_read (num_reads : Nat) (readLen : Nat → Nat) : Nat :=
  ((List.range num_reads).map readLen).sum

/-- One operation of the `smb_random_io` loop. -/
inductive RndOp where
  | readOk (n : Nat)
  | readSkip
  | write (n : Nat)
deriving DecidableEq, Repr

/-- Operation trace of `smb_random_io` (src/smb_tempest.py lines 332-344):
the i-th iteration is a read when `random.random() < read_pct / 100`
(returning `rndReadLen i` bytes, or skipped via `continue` when the read
raises), else a write of `block_size` fresh random bytes.  The random
offsets, drawn in `[0, max 0 (file_size - block_size)]`, do not affect the
byte accounting and are abstracted away. -/
def smb_random_io_trace (block_size num_ops : Nat) (read_pct : ℤ)
    (env : SessionEnv) : List RndOp :=
  (List.range num_ops).map (fun i =>
    if env.rnd i < (read_pct : ℚ) / 100 then
      match env.rndReadLen i with
      | some n => RndOp.readOk n
      | none => RndOp.readSkip
    else RndOp.write block_size)

/-- Contribution of one operation to the `total_bytes` accumulator. -/
def rndOpBytes : RndOp → Nat
  | RndOp.readOk n => n
  | RndOp.readSkip => 0
  | RndOp.write n => n

/-- Bytes a trace moved by reads. -/
def rndReadBytes (t : List RndOp) : Nat :=
  (t.map (fun o => match o with | RndOp.readOk n => n | _ => 0)).sum

/-- Bytes a trace moved by writes. -/
def rndWriteBytes (t : List RndOp) : Nat :=
  (t.map (fun o => match o with | RndOp.write n => n | _ => 0)).sum

/-- Value of `total_bytes` returned by `smb_random_io`.  The `file_size`
argument only bounds the random offsets, which the byte accounting does
not depend on. -/
def smb_random_io (file_size block_size num_ops : Nat) (read_pct : ℤ)
    (env : SessionEnv) : Nat :=
  let _ := file_size
  ((smb_random_io_trace block_size num_ops read_pct env).map rndOpBytes).sum

/-- Embeds `process_task` (src/smb_tempest.py lines 237-296).  When any
operation of the try-block raises (`env.failure = some e`) the exception is
caught at line 293, logged, and the empty dict is returned; otherwise the
selected workload runs and the stats dict is returned.  The
streaming-reads branch overwrites `args.block_size` with `4 * 1024 * 1024`
before calling `smb_read_file` (line 255); the streaming-writes branch
issues `smb_create_file_writes` and records `bytes_read = 0`. -/
def process_task (cfg : Config) (env : SessionEnv) : TaskStats :=
  match env.failure with
  | some _ => TaskStats.empty
  | none =>
    match cfg.mode with
    | Mode.streaming_reads =>
      { mode := some (infer_mode_label Mode.streaming_reads)
        bytes_read := some (smb_read_file env.fileSize (4 * 1024 * 1024) env.chunkLen)
        num_random_files := some 0
        error := none }
    | Mode.read_iops =>
      { mode := some (infer_mode_label Mode.read_iops)
        bytes_read := some (smb_iops_read cfg.num_iops_reads env.iopsReadLen)
        num_random_files := some 0
        error := none }
    | Mode.streaming_writes =>
      { mode := some (infer_mode_label Mode.streaming_writes)
        bytes_read := some 0
        num_random_files := some 0
        error := none }
    | Mode.random_io =>
      { mode := some (infer_mode_label Mode.random_io)
        bytes_read := some (smb_random_io (cfg.max_file_size * 1024 ^ 2)
          cfg.block_size cfg.num_random_ops cfg.max_random_io_readpct env)
        num_random_files := some 0
        error := none }
    | Mode.default_mode =>
      { mode := some (infer_mode_label Mode.default_mode)
        bytes_read := some (smb_read_file env.fileSize cfg.block_size env.chunkLen)
        num_random_files := some env.numRandomFiles
        error := none }

/-- Result-collection loop of `__main__` (src/smb_tempest.py lines
449-457), over the futures' results in `as_completed` (arrival) order.
`Except.ok r` is a future whose `result()` call returns the dict `r`;
`Except.error e` is one whose `result()` call raises.  A truthy (non-empty)
dict is appended; on a raised exception the loop breaks when `fail_fast`
is set, else continues.  (`process_task` catches every exception, so the
futures built from it never raise.) -/
def gather (fail_fast : Bool) : List (Except String TaskStats) → List TaskStats
  | [] => []
  | Except.ok r :: rest =>
    if r.isTruthy then r :: gather fail_fast rest else gather fail_fast rest
  | Except.error _ :: rest =>
    if fail_fast then [] else gather fail_fast rest

/-- Full run: each session task is executed (never raising, since
`process_task` returns `{}` on failure) and the results are collected in
arrival order `envs`. -/
def run_main (cfg : Config) (envs : List SessionEnv) : List TaskStats :=
  gather cfg.fail_fast (envs.map (fun e => Except.ok (process_task cfg e)))

/-- Run-level summary printed by `print_summary`
(src/smb_tempest.py lines 387-409).  `warn_no_data` records whether the
"Warning: Nothing read!" line is printed (line 408: exactly when
`total_bytes == 0`). -/
structure Summary where
  total_tasks : Nat
  total_bytes : Nat
  total_files : Nat
  throughput : ℚ
  max_iops : ℤ
  modes : Finset String
  warn_no_data : Bool
deriving DecidableEq

/-- Embeds `print_summary`: totals are sums of `stats.get(key, 0)`, the
mode set is the Python `set` of `stats.get("mode", "default")`, throughput
and IOPS are guarded by `elapsed_time > 0` and are 0 otherwise.  Python's
float arithmetic is idealised as exact rationals; `int()` on these
non-negative quotients is the floor. -/
def print_summary (task_stats_list : List TaskStats) (elapsed_time : ℚ) : Summary :=
  { total_tasks := task_stats_list.length
    total_bytes := (task_stats_list.map (fun s => s.bytes_read.getD 0)).sum
    total_files := (task_stats_list.map (fun s => s.num_random_files.getD 0)).sum
    throughput :=
      if 0 < elapsed_time then
        (((task_stats_list.map (fun s => s.bytes_read.getD 0)).sum : ℚ) / 1024 ^ 2) /
          elapsed_time
      else 0
    max_iops :=
      if 0 < elapsed_time then
        Int.floor ((((task_stats_list.map (fun s => s.bytes_read.getD 0)).sum : ℚ) / 4096) /
          elapsed_time)
      else 0
    modes := (task_stats_list.map (fun s => s.mode.getD "default")).toFinset
    warn_no_data := (task_stats_list.map (fun s => s.bytes_read.getD 0)).sum == 0 }

/-- Helper: when every attempt from `s` up to but excluding `s + (r - 1)`
fails and attempt `s + (r - 1)` succeeds, `retryAux` starting at attempt
`s` with `r` remaining attempts returns that success after exactly `r`
invocations. -/
theorem retryAux_ok {ε α : Type} (op : Nat → Except ε α) (a : α) :
    ∀ r s, 1 ≤ r →
      (∀ i, s ≤ i → i < s + (r - 1) → ∃ e, op i = Except.error e) →
      op (s + (r - 1)) = Except.ok a →
      retryAux op s r = (r, some (Except.ok a)) := by
  intro r
  induction r with
  | zero => intro s h; omega
  | succ r ih =>
    intro s _ hfail hok
    by_cases hr : r = 0
    · subst hr
      have h1 : op s = Except.ok a := by simpa using hok
      simp [retryAux, h1]
    · obtain ⟨e, he⟩ := hfail s (le_refl s) (by omega)
      have hrec := ih (s + 1) (by omega)
        (fun i h1 h2 => hfail i (by omega) (by omega))
        (by
          have heq : s + 1 + (r - 1) = s + (r + 1 - 1) := by omega
          rw [heq]; exact hok)
      simp [retryAux, he, hr, hrec]

/-- Helper: when every attempt fails, `retryAux` starting at attempt `s`
with `r ≥ 1` remaining attempts performs exactly `r` invocations and
returns (re-raises) the outcome of the last attempt `s + (r - 1)`. -/
theorem retryAux_allFail {ε α : Type} (op : Nat → Except ε α)
    (h : ∀ i, ∃ e, op i = Except.error e) :
    ∀ r s, 1 ≤ r → retryAux op s r = (r, some (op (s + (r - 1)))) := by
  intro r
  induction r with
  | zero => intro s h1; omega
  | succ r ih =>
    intro s _
    obtain ⟨e, he⟩ := h s
    by_cases hr : r = 0
    · subst hr
      simp [retryAux, he]
    · have hrec := ih (s + 1) (by omega)
      have heq : s + 1 + (r - 1) = s + (r + 1 - 1) := by omega
      rw [heq] at hrec
      simp [retryAux, he, hr, hrec]

/-- C4: for every `max_attempts = k ≥ 1`, the retry wrapper applied to an
operation failing the first `k - 1` invocations and succeeding on the k-th
returns that success after exactly `k` invocations; applied to an
operation that always fails, it performs exactly `k` invocations and
re-raises the failure of the last one, never returning silently. -/
theorem retry_operation_spec {ε α : Type} (k : Nat) (hk : 1 ≤ k)
    (op : Nat → Except ε α) :
    (∀ a, (∀ i, i < k - 1 → ∃ e, op i = Except.error e) →
        op (k - 1) = Except.ok a →
        retry_operation k op = some (Except.ok a) ∧ retry_invocations k op = k) ∧
    ((∀ i, ∃ e, op i = Except.error e) →
      (∃ e, retry_operation k op = some (Except.error e) ∧
        op (k - 1) = Except.error e) ∧
        retry_invocations k op = k) := by
  constructor
  · intro a hfail hok
    have h := retryAux_ok op a k 0 hk
      (fun i _ h2 => hfail i (by omega)) (by simpa using hok)
    exact ⟨by simp [retry_operation, h], by simp [retry_invocations, h]⟩
  · intro hall
    have h := retryAux_allFail op hall k 0 hk
    obtain ⟨e, he⟩ := hall (k - 1)
    refine ⟨⟨e, ?_, he⟩, ?_⟩
    · simp only [retry_operation, h]
      simpa using congrArg (fun x => some x) he
    · simp [retry_invocations, h]

/-- Operation that fails its first two invocations and then succeeds, used
to witness the retry contract at `k = 3`. -/
def opTwoFailsThenOk : Nat → Except Nat Nat := fun i =>
  if i < 2 then Except.error i else Except.ok 42

/-- Witness for C4: at `k = 3` the wrapper returns the third invocation's
success after exactly three invocations. -/
theorem retry_operation_spec_witness :
    retry_operation 3 opTwoFailsThenOk = some (Except.ok 42) ∧
      retry_invocations 3 opTwoFailsThenOk = 3 :=
  (retry_operation_spec 3 (by decide) opTwoFailsThenOk).1 42
    (fun i hi => ⟨i, by
      have h2 : i < 2 := by omega
      simp [opTwoFailsThenOk, h2]⟩)
    (by rfl)

/-- Helper: the write lengths emitted by `writeBlocksAux` sum to exactly
the remaining byte count, whenever the fuel suffices and the block size is
positive. -/
theorem writeBlocksAux_sum (block_size : Nat) (hb : 1 ≤ block_size) :
    ∀ fuel offset remaining, remaining ≤ fuel →
      ((writeBlocksAux block_size offset remaining fuel).map Prod.snd).sum = remaining := by
  intro fuel
  induction fuel with
  | zero =>
    intro o r hr
    have h0 : r = 0 := by omega
    subst h0
    simp [writeBlocksAux]
  | succ fuel ih =>
    intro o r hr
    by_cases h0 : r = 0
    · subst h0; simp [writeBlocksAux]
    · have hmr : min block_size r ≤ r := Nat.min_le_right _ _
      have hm1 : 1 ≤ min block_size r := le_min hb (by omega)
      simp only [writeBlocksAux, if_neg h0, List.map_cons, List.sum_cons]
      rw [ih (o + min block_size r) (r - min block_size r) (by omega)]
      omega

/-- Helper: the i-th write of `writeBlocksAux` is placed at `offset` plus
the bytes written before it, and its length is `min block_size` of the
bytes still to write at that point. -/
theorem writeBlocksAux_get (block_size : Nat) (hb : 1 ≤ block_size) :
    ∀ fuel offset remaining, remaining ≤ fuel →
      ∀ i (h : i < (writeBlocksAux block_size offset remaining fuel).length),
        (writeBlocksAux block_size offset remaining fuel)[i] =
          (offset + (((writeBlocksAux block_size offset remaining fuel).take i).map Prod.snd).sum,
           min block_size (remaining - (((writeBlocksAux block_size offset remaining fuel).take i).map Prod.snd).sum)) := by
  intro fuel
  induction fuel with
  | zero =>
    intro o r hr i h
    have h0 : r = 0 := by omega
    subst h0
    simp [writeBlocksAux] at h
  | succ fuel ih =>
    intro o r hr i h
    by_cases h0 : r = 0
    · subst h0; simp [writeBlocksAux] at h
    · have hlist : writeBlocksAux block_size o r (fuel + 1) =
          (o, min block_size r) ::
            writeBlocksAux block_size (o + min block_size r) (r - min block_size r) fuel := by
        simp [writeBlocksAux, h0]
      have hmr : min block_size r ≤ r := Nat.min_le_right _ _
      cases i with
      | zero =>
        simp only [hlist]
        simp
      | succ i =>
        have h' : i < (writeBlocksAux block_size (o + min block_size r)
            (r - min block_size r) fuel).length := by
          rw [hlist] at h
          simpa using h
        have ihi := ih (o + min block_size r) (r - min block_size r) (by omega) i h'
        simp only [hlist]
        simp only [List.getElem_cons_succ, List.take_succ_cons, List.map_cons,
          List.sum_cons]
        rw [ihi, Prod.mk.injEq]
        constructor
        · omega
        · congr 1
          omega

/-- C5: for every target `size` and `block_size ≥ 1`, the write schedule of
`smb_create_file` consists of sequential blocks at cumulative offsets
whose lengths sum to exactly `size`; the i-th write is placed at the byte
count already written and is `min block_size remaining` bytes long, and no
prefix of the schedule exceeds `size` bytes. -/
theorem smb_create_file_spec (size block_size : Nat) (hb : 1 ≤ block_size) :
    ((smb_create_file_writes size block_size).map Prod.snd).sum = size ∧
    (∀ i (h : i < (smb_create_file_writes size block_size).length),
      (smb_create_file_writes size block_size)[i] =
        ((((smb_create_file_writes size block_size).take i).map Prod.snd).sum,
         min block_size
           (size - (((smb_create_file_writes size block_size).take i).map Prod.snd).sum))) ∧
    (∀ i, (((smb_create_file_writes size block_size).take i).map Prod.snd).sum ≤ size) := by
  simp only [smb_create_file_writes]
  refine ⟨writeBlocksAux_sum block_size hb size 0 size (le_refl size), ?_, ?_⟩
  · intro i h
    have hg := writeBlocksAux_get block_size hb size 0 size (le_refl size) i h
    simpa using hg
  · intro i
    have hs := writeBlocksAux_sum block_size hb size 0 size (le_refl size)
    have key : ((writeBlocksAux block_size 0 size size).map Prod.snd).sum =
        (((writeBlocksAux block_size 0 size size).take i).map Prod.snd).sum +
        (((writeBlocksAux block_size 0 size size).drop i).map Prod.snd).sum := by
      rw [← List.sum_append, ← List.map_append, List.take_append_drop]
    omega

/-- Witness for C5: at `size = 5`, `block_size = 2` the schedule's lengths
sum to exactly 5. -/
theorem smb_create_file_spec_witness :
    ((smb_create_file_writes 5 2).map Prod.snd).sum = 5 :=
  (smb_create_file_spec 5 2 (by decide)).1

/-- Helper: summing a constant over a list gives length times the
constant. -/
theorem sum_map_const_nat {β : Type} (l : List β) (c : Nat) :
    (l.map (fun _ => c)).sum = l.length * c := by
  induction l with
  | nil => simp
  | cons a l ih => simp [ih, Nat.succ_mul, Nat.add_comm]

/-- C6: with read-percentage 0 every `smb_random_io` operation is a write,
so the returned total is exactly `num_ops * block_size` and zero bytes are
moved by reads; with read-percentage 100 no operation is a write, so zero
bytes are moved by writes. -/
theorem smb_random_io_pct_extremes (file_size block_size num_ops : Nat)
    (env : SessionEnv) (hr : ∀ i, 0 ≤ env.rnd i ∧ env.rnd i < 1) :
    (smb_random_io file_size block_size num_ops 0 env = num_ops * block_size ∧
      rndReadBytes (smb_random_io_trace block_size num_ops 0 env) = 0 ∧
      rndWriteBytes (smb_random_io_trace block_size num_ops 0 env) =
        num_ops * block_size) ∧
    rndWriteBytes (smb_random_io_trace block_size num_ops 100 env) = 0 := by
  have h0 : smb_random_io_trace block_size num_ops 0 env =
      (List.range num_ops).map (fun _ => RndOp.write block_size) := by
    unfold smb_random_io_trace
    apply List.map_congr_left
    intro i _
    have hge := (hr i).1
    rw [if_neg]
    rw [show (((0 : ℤ) : ℚ)) / 100 = 0 by norm_num]
    exact not_lt.mpr hge
  refine ⟨⟨?_, ?_, ?_⟩, ?_⟩
  · unfold smb_random_io
    rw [h0, List.map_map]
    have : (rndOpBytes ∘ fun _ => RndOp.write block_size) =
        (fun (_ : Nat) => block_size) := by
      funext x; rfl
    rw [this, sum_map_const_nat, List.length_range]
  · unfold rndReadBytes
    rw [h0, List.map_map]
    apply List.sum_eq_zero
    intro x hx
    simp [List.mem_map] at hx
    obtain ⟨i, _, rfl⟩ := hx
    rfl
  · unfold rndWriteBytes
    rw [h0, List.map_map]
    have : ((fun o => match o with | RndOp.write n => n | _ => 0) ∘
        fun _ => RndOp.write block_size) = (fun (_ : Nat) => block_size) := by
      funext x; rfl
    rw [this, sum_map_const_nat, List.length_range]
  · unfold rndWriteBytes
    apply List.sum_eq_zero
    intro x hx
    simp only [List.mem_map] at hx
    obtain ⟨o, ho, rfl⟩ := hx
    unfold smb_random_io_trace at ho
    simp only [List.mem_map] at ho
    obtain ⟨i, _, rfl⟩ := ho
    have hc : env.rnd i < ((100 : ℤ) : ℚ) / 100 := by
      have hlt := (hr i).2
      rw [show (((100 : ℤ) : ℚ)) / 100 = 1 by norm_num]
      exact hlt
    rw [if_pos hc]
    cases env.rndReadLen i <;> rfl

/-- Environment with deterministic midpoint randomness, used to witness
C6 at two operations of 4096 bytes each. -/
def envHalfRnd : SessionEnv :=
  { failure := none
    iopsReadLen := fun _ => 4096
    fileSize := 0
    chunkLen := fun _ => 0
    rnd := fun _ => 1 / 2
    rndReadLen := fun _ => some 0
    numRandomFiles := 10 }

/-- Witness for C6: two operations of 4096 bytes at read-percentage 0 move
exactly 8192 write bytes, and at read-percentage 100 zero write bytes. -/
theorem smb_random_io_pct_extremes_witness :
    (smb_random_io 0 4096 2 0 envHalfRnd = 2 * 4096 ∧
      rndReadBytes (smb_random_io_trace 4096 2 0 envHalfRnd) = 0 ∧
      rndWriteBytes (smb_random_io_trace 4096 2 0 envHalfRnd) = 2 * 4096) ∧
    rndWriteBytes (smb_random_io_trace 4096 2 100 envHalfRnd) = 0 :=
  smb_random_io_pct_extremes 0 4096 2 envHalfRnd
    (fun _ => ⟨by norm_num [envHalfRnd], by norm_num [envHalfRnd]⟩)

/-- Concrete stats entry with 4096 bytes read, for the C8 counterexample
and the C9 witness. -/
def statsOneRead : TaskStats :=
  { mode := some "read_iops", bytes_read := some 4096,
    num_random_files := some 0, error := none }

/-- Counterexample to C8 as stated: at elapsed time 0 with 4096 bytes
read, throughput and IOPS are both 0 yet the "no data moved" warning is
not emitted (it is keyed on `total_bytes == 0`, not on the elapsed
time). -/
theorem print_summary_zero_elapsed_no_warning :
    (print_summary [statsOneRead] 0).warn_no_data = false ∧
      (print_summary [statsOneRead] 0).total_bytes = 4096 ∧
      (print_summary [statsOneRead] 0).throughput = 0 ∧
      (print_summary [statsOneRead] 0).max_iops = 0 := by
  refine ⟨?_, ?_, ?_, ?_⟩ <;>
    simp [print_summary, statsOneRead]

/-- C8 (amended): whenever the elapsed time is zero or no bytes were
moved, throughput and IOPS are exactly zero (never a division error), and
the "no data moved" warning is emitted exactly when the total byte count
is zero (regardless of the elapsed time). -/
theorem print_summary_zero_guard (l : List TaskStats) (t : ℚ)
    (h : t = 0 ∨ (l.map (fun s => s.bytes_read.getD 0)).sum = 0) :
    (print_summary l t).throughput = 0 ∧ (print_summary l t).max_iops = 0 ∧
      ((print_summary l t).warn_no_data = true ↔
        (l.map (fun s => s.bytes_read.getD 0)).sum = 0) := by
  rcases h with h | h
  · subst h
    refine ⟨?_, ?_, ?_⟩ <;> simp [print_summary]
  · have hq : (l.map (fun s => ((s.bytes_read.getD 0 : Nat) : ℚ))).sum = 0 := by
      have hc := congrArg (fun n : Nat => (n : ℚ)) h
      push_cast at hc
      simpa using hc
    refine ⟨?_, ?_, ?_⟩ <;> simp [print_summary, h, hq]

/-- Witness for C8 (amended): the empty run at elapsed time 0 reports zero
throughput and IOPS and emits the warning. -/
theorem print_summary_zero_guard_witness :
    (print_summary [] 0).throughput = 0 ∧ (print_summary [] 0).max_iops = 0 ∧
      ((print_summary [] 0).warn_no_data = true ↔
        (([] : List TaskStats).map (fun s => s.bytes_read.getD 0)).sum = 0) :=
  print_summary_zero_guard [] 0 (Or.inl rfl)

/-- C9: folding the task results is order-independent: permuted result
lists give identical summaries (same task count, byte and file totals,
derived rates, and mode set). -/
theorem print_summary_perm (l1 l2 : List TaskStats) (t : ℚ) (h : l1.Perm l2) :
    print_summary l1 t = print_summary l2 t := by
  have hb : (l1.map (fun s => s.bytes_read.getD 0)).sum =
      (l2.map (fun s => s.bytes_read.getD 0)).sum := (h.map _).sum_eq
  have hf : (l1.map (fun s => s.num_random_files.getD 0)).sum =
      (l2.map (fun s => s.num_random_files.getD 0)).sum := (h.map _).sum_eq
  have hm : (l1.map (fun s => s.mode.getD "default")).toFinset =
      (l2.map (fun s => s.mode.getD "default")).toFinset :=
    List.toFinset_eq_of_perm _ _ (h.map _)
  have hbq : (l1.map (fun s => ((s.bytes_read.getD 0 : Nat) : ℚ))).sum =
      (l2.map (fun s => ((s.bytes_read.getD 0 : Nat) : ℚ))).sum := (h.map _).sum_eq
  simp [print_summary, hb, hf, hm, hbq, h.length_eq]

/-- Concrete churn-mode stats entry for the C9 witness. -/
def statsChurn : TaskStats :=
  { mode := some "default (write stream → read stream → churn small random files)",
    bytes_read := some 100, num_random_files := some 3, error := none }

/-- Witness for C9: swapping two concrete results leaves the summary
unchanged. -/
theorem print_summary_perm_witness :
    print_summary [statsOneRead, statsChurn] 1 =
      print_summary [statsChurn, statsOneRead] 1 :=
  print_summary_perm [statsOneRead, statsChurn] [statsChurn, statsOneRead] 1
    (List.Perm.swap statsChurn statsOneRead [])

/-- C10: `smb_read_file` clamps the per-range read length to
`min block_size MAX_SMB_READ_SIZE`, so every read request it issues is at
most 1 MiB (1048576 bytes) long; with the 4 MiB block size installed by
streaming-reads mode every request is exactly 1 MiB long. -/
theorem smb_read_file_clamp (file_size block_size : Nat) :
    (∀ r ∈ smb_read_file_requests file_size block_size,
      r.2 = min block_size MAX_SMB_READ_SIZE ∧ r.2 ≤ 1048576) ∧
    (∀ r ∈ smb_read_file_requests file_size (4 * 1024 * 1024),
      r.2 = 1048576) := by
  constructor
  · intro r hr
    unfold smb_read_file_requests at hr
    simp only [List.mem_map] at hr
    obtain ⟨off, _, rfl⟩ := hr
    refine ⟨rfl, ?_⟩
    have : MAX_SMB_READ_SIZE = 1048576 := by norm_num [MAX_SMB_READ_SIZE]
    rw [this]
    exact Nat.min_le_right _ _
  · intro r hr
    unfold smb_read_file_requests at hr
    simp only [List.mem_map] at hr
    obtain ⟨off, _, rfl⟩ := hr
    norm_num [MAX_SMB_READ_SIZE]

/-- Witness for C10: with a 1-byte file and the streaming-reads 4 MiB
block size, the single request issued is 1 MiB long. -/
theorem smb_read_file_clamp_witness :
    ((0, 1048576) : Nat × Nat).2 = min (4 * 1024 * 1024) MAX_SMB_READ_SIZE ∧
      ((0, 1048576) : Nat × Nat).2 ≤ 1048576 :=
  (smb_read_file_clamp 1 (4 * 1024 * 1024)).1 (0, 1048576) (by decide)

/-- C1: in read-iops mode a session task that does not fail issues exactly
`num_iops_reads` read requests, each a fixed-size 4096-byte read at
offset 0, and records the total bytes those reads return as the task's
`bytes_read` statistic. -/
theorem process_task_read_iops (cfg : Config) (env : SessionEnv)
    (hmode : cfg.mode = Mode.read_iops) (hok : env.failure = none) :
    (smb_iops_read_requests cfg.num_iops_reads).length = cfg.num_iops_reads ∧
    (∀ r ∈ smb_iops_read_requests cfg.num_iops_reads, r = (0, 4096)) ∧
    (process_task cfg env).bytes_read =
      some (((List.range cfg.num_iops_reads).map env.iopsReadLen).sum) := by
  refine ⟨?_, ?_, ?_⟩
  · simp [smb_iops_read_requests]
  · intro r hr
    simp only [smb_iops_read_requests, List.mem_map] at hr
    obtain ⟨i, _, rfl⟩ := hr
    rfl
  · simp [process_task, hok, hmode, smb_iops_read]

/-- Read-iops configuration with two reads per task, used by witnesses and
counterexamples. -/
def cfgIops : Config :=
  { mode := Mode.read_iops, num_smb_sessions := 2, max_file_size := 1,
    block_size := 1024 * 1024, fail_fast := false, num_iops_reads := 2,
    num_random_ops := 100, max_random_io_readpct := 50 }

/-- Witness for C1: a concrete non-failing read-iops task issues two
(0, 4096) requests and records their byte total. -/
theorem process_task_read_iops_witness :
    (smb_iops_read_requests cfgIops.num_iops_reads).length = cfgIops.num_iops_reads ∧
    (∀ r ∈ smb_iops_read_requests cfgIops.num_iops_reads, r = (0, 4096)) ∧
    (process_task cfgIops envHalfRnd).bytes_read =
      some (((List.range cfgIops.num_iops_reads).map envHalfRnd.iopsReadLen).sum) :=
  process_task_read_iops cfgIops envHalfRnd rfl rfl

/-- Session environment whose task raises inside the try-block. -/
def envBoom : SessionEnv :=
  { envHalfRnd with failure := some "STATUS_ACCESS_DENIED" }

/-- Counterexample to C3 as stated: a concrete failed task returns the
empty dict, which does not carry the error (the error is only logged), so
a failed task's result does not carry "only the error". -/
theorem process_task_failed_carries_no_error :
    envBoom.failure.isSome = true ∧
      (process_task cfgIops envBoom).error = none ∧
      process_task cfgIops envBoom = TaskStats.empty :=
  ⟨rfl, rfl, rfl⟩

/-- C3 (amended): every session task returns exactly one stats dict (the
embedding of `process_task` is a total function), and a task that fails
returns the empty dict: no partial byte or file counts, and no error
either — the error is only logged. -/
theorem process_task_failed_empty (cfg : Config) (env : SessionEnv)
    (h : env.failure.isSome = true) :
    process_task cfg env = TaskStats.empty ∧
      (process_task cfg env).bytes_read = none ∧
      (process_task cfg env).num_random_files = none ∧
      (process_task cfg env).error = none := by
  obtain ⟨e, he⟩ := Option.isSome_iff_exists.mp h
  refine ⟨?_, ?_, ?_, ?_⟩ <;> simp [process_task, he, TaskStats.empty]

/-- Environment raising a different exception, for the C3 witness. -/
def envTimeout : SessionEnv :=
  { envHalfRnd with failure := some "STATUS_IO_TIMEOUT" }

/-- Witness for C3 (amended): a concrete failed task returns the empty
dict. -/
theorem process_task_failed_empty_witness :
    process_task cfgIops envTimeout = TaskStats.empty ∧
      (process_task cfgIops envTimeout).bytes_read = none ∧
      (process_task cfgIops envTimeout).num_random_files = none ∧
      (process_task cfgIops envTimeout).error = none :=
  process_task_failed_empty cfgIops envTimeout rfl

/-- Helper: a task whose try-block does not raise returns a dict with its
mode key set, which is truthy. -/
theorem process_task_ok_truthy (cfg : Config) (env : SessionEnv)
    (h : env.failure = none) : (process_task cfg env).isTruthy = true := by
  cases hm : cfg.mode <;> simp [process_task, h, hm, TaskStats.isTruthy]

/-- Helper: a task whose try-block raises returns the empty dict, which is
falsy. -/
theorem process_task_failed_falsy (cfg : Config) (env : SessionEnv)
    (h : env.failure.isSome = true) : (process_task cfg env).isTruthy = false := by
  obtain ⟨e, he⟩ := Option.isSome_iff_exists.mp h
  simp [process_task, he, TaskStats.isTruthy, TaskStats.empty]

/-- Counterexample to C2 as stated: a run of N = 1 tasks (without
fail-fast) whose single task fails collects 0 results, not 1: the failed
task's empty dict fails the truthiness test at line 452 and is dropped. -/
theorem run_main_count_counterexample :
    cfgIops.fail_fast = false ∧ ([envBoom] : List SessionEnv).length = 1 ∧
      (run_main cfgIops [envBoom]).length = 0 :=
  ⟨rfl, rfl, rfl⟩

/-- C2 (amended): for any fail-fast setting, the collected result count
(the length of the `task_stats` list fed to the summary) equals the number
of the N tasks whose try-block did not raise — failed tasks return falsy
empty dicts that are dropped — so it equals N exactly when no task
fails. -/
theorem run_main_count (cfg : Config) (envs : List SessionEnv) :
    (run_main cfg envs).length =
      (envs.filter (fun e => e.failure.isNone)).length := by
  unfold run_main
  induction envs with
  | nil => simp [gather]
  | cons e rest ih =>
    cases hf : e.failure with
    | none =>
      have ht := process_task_ok_truthy cfg e hf
      simp [gather, ht, List.filter_cons, hf, ih]
    | some err =>
      have hfa : (process_task cfg e).isTruthy = false :=
        process_task_failed_falsy cfg e (by simp [hf])
      simp [gather, hfa, List.filter_cons, hf, ih]

/-- Fail-fast variant of the concrete configuration. -/
def cfgFailFast : Config := { cfgIops with fail_fast := true }

/-- C7: evaluation at the failing input.  With fail-fast set, the first
task fails, yet the successful result arriving after the failure is still
collected: `process_task` catches every exception and returns the empty
dict, so a future's `result()` call never raises and the fail-fast
`break` at line 457 is unreachable. -/
theorem run_main_fail_fast_dead :
    cfgFailFast.fail_fast = true ∧ envBoom.failure.isSome = true ∧
      run_main cfgFailFast [envBoom, envHalfRnd] =
        [process_task cfgFailFast envHalfRnd] ∧
      (run_main cfgFailFast [envBoom, envHalfRnd]).length = 1 :=
  ⟨rfl, rfl, rfl, rfl⟩
